import Mathlib

/-!
# Verification of the `uttrs` unit-aware attribute layer

A shallow embedding of `src/uttr.py` (current version) and, where needed,
`src/uttrs.py` (the earlier version of the same module), together with
proofs about the embedded operations.

Modelling conventions:

* An astropy unit (`astropy.units.UnitBase`) is modelled as a physical
  dimension vector together with a positive rational scale relative to the
  base unit of that dimension (`UnitBase` below).  Two astropy units compare
  equal exactly when dimension and scale agree, linear unit conversion
  multiplies the magnitude by the ratio of the scales and succeeds exactly
  when the dimensions agree (we model plain linear units; offset units such
  as temperatures never occur in the repository's code or tests).
* A Python value flowing through the module is `Value`: the constant `None`,
  a bare number or numpy array (`Value.num`), or an astropy quantity
  (`Value.quantity`), whose numeric payload is `NumData`.
* Exceptions become `Except`; the `ValueError` raised by the validator is
  the structure `UttrValueError` holding exactly the data interpolated into
  the source's f-string (attribute name, configured unit, unit found).
* Python's in-place mutation of caller-supplied lists/dicts inside
  `attribute` is made observable by returning, next to the built descriptor,
  the state of each caller-passed argument object after the call
  (`AttributeResult`).
-/

deriving instance DecidableEq for Except

/-- The metadata key under which the unit policy is stored
(`UTTR_METADATA = "_uttr_ucav"` in `src/uttr.py`). -/
def UTTR_METADATA : String := "_uttr_ucav"

/-- A physical dimension, as an exponent vector (mass exponent, length
exponent).  Dimensions multiply by adding exponents; `(0, 0)` is the
dimensionless dimension. -/
abbrev Dim := Int × Int

/-- Model of `astropy.units.UnitBase`: a dimension plus a positive rational
scale relative to the base unit of that dimension. -/
structure UnitBase where
  dim : Dim
  scale : ℚ
deriving DecidableEq, Repr

/-- `astropy.units.dimensionless_unscaled`. -/
def dimensionless_unscaled : UnitBase := ⟨(0, 0), 1⟩

/-- Kilogram: base mass unit. -/
def kg : UnitBase := ⟨(1, 0), 1⟩

/-- Gram: `1/1000` of a kilogram. -/
def gram : UnitBase := ⟨(1, 0), 1 / 1000⟩

/-- Metre: base length unit. -/
def meter : UnitBase := ⟨(0, 1), 1⟩

/-- Product of two units: dimensions multiply (exponents add), scales
multiply. -/
def UnitBase.mulU (u1 u2 : UnitBase) : UnitBase :=
  ⟨u1.dim + u2.dim, u1.scale * u2.scale⟩

/-- The numeric payload of a Python value: a scalar or a numpy array. -/
inductive NumData where
  | scalar (x : ℚ)
  | array (xs : List ℚ)
deriving DecidableEq, Repr

/-- Elementwise multiplication of a numeric payload by a rational factor
(the effect of a linear unit conversion on the magnitude). -/
def NumData.smul (c : ℚ) : NumData → NumData
  | NumData.scalar x => NumData.scalar (c * x)
  | NumData.array xs => NumData.array (xs.map (fun x => c * x))

/-- A Python value handled by the module: `None`, a bare number / numpy
array, or an `astropy.units.Quantity`. -/
inductive Value where
  | none
  | num (d : NumData)
  | quantity (d : NumData) (unit : UnitBase)
deriving DecidableEq, Repr

/-- Python `value * unit` (promotion): a bare number times a unit becomes a
quantity of that unit; a quantity times a unit multiplies the units.
(`None * unit` never happens in the embedded code paths, guarded by
`value is not None`; we let it return `None`.) -/
def mulUnit : Value → UnitBase → Value
  | Value.none, _ => Value.none
  | Value.num d, un => Value.quantity d un
  | Value.quantity d u1, u2 => Value.quantity d (u1.mulU u2)

/-- Errors of the units collaborator: `astropy.units.UnitConversionError`,
and the `AttributeError` raised when `.to` / `.to_value` is requested from a
value that is not a quantity. -/
inductive UnitError where
  | unitConversionError (fromU toU : UnitBase)
  | notAQuantity
deriving DecidableEq, Repr

/-- `Quantity.to(target)`: succeeds exactly when the dimensions agree, and
then rescales the magnitude by the ratio of the scales. -/
def Value.to : Value → UnitBase → Except UnitError Value
  | Value.quantity d un, target =>
      if un.dim = target.dim then
        Except.ok (Value.quantity (d.smul (un.scale / target.scale)) target)
      else
        Except.error (UnitError.unitConversionError un target)
  | Value.none, _ => Except.error UnitError.notAQuantity
  | Value.num _, _ => Except.error UnitError.notAQuantity

/-- The `ValueError` raised by the unit validators; it carries exactly the
data interpolated into the message
`"Unit of attribute '{aname}' must be equivalent to '{unit}'. Found '{ufound}'."`. -/
structure UttrValueError where
  aname : String
  unit : UnitBase
  ufound : UnitBase
deriving DecidableEq, Repr

/-- `UnitConverterAndValidator` (`src/uttr.py`, lines 63-139): a frozen attrs
class holding the configured unit. -/
structure UnitConverterAndValidator where
  unit : UnitBase
deriving DecidableEq, Repr

/-- `is_dimensionless` (`src/uttr.py`, lines 79-83):
`not isinstance(v, u.Quantity) or v.unit == u.dimensionless_unscaled`. -/
def UnitConverterAndValidator.is_dimensionless
    (_self : UnitConverterAndValidator) (v : Value) : Bool :=
  match v with
  | Value.quantity _ un => un = dimensionless_unscaled
  | _ => true

/-- `to_array` (`src/uttr.py`, lines 85-87): `v.to_value(self.unit)` —
convert the quantity to the configured unit and strip the unit tag. -/
def UnitConverterAndValidator.to_array
    (self : UnitConverterAndValidator) (v : Value) : Except UnitError NumData :=
  match v with
  | Value.quantity d un =>
      if un.dim = self.unit.dim then
        Except.ok (d.smul (un.scale / self.unit.scale))
      else
        Except.error (UnitError.unitConversionError un self.unit)
  | _ => Except.error UnitError.notAQuantity

/-- `convert_if_dimensionless` (`src/uttr.py`, lines 89-108):
`if self.is_dimensionless(value) and value is not None: return value * self.unit`
`return value`. -/
def UnitConverterAndValidator.convert_if_dimensionless
    (self : UnitConverterAndValidator) (value : Value) : Value :=
  if self.is_dimensionless value = true ∧ value ≠ Value.none then
    mulUnit value self.unit
  else
    value

/-- `validate_is_equivalent_unit` (`src/uttr.py`, lines 110-139).  The attrs
validator receives `(instance, attribute, value)` and only uses
`attribute.name`, which we pass as `aname`.  For a non-dimensionless value it
probes convertibility on the single scalar `1 * value.unit` and raises
`ValueError` on `UnitConversionError`.  (The fallback branch for a
non-quantity value is unreachable: non-quantities are dimensionless.) -/
def UnitConverterAndValidator.validate_is_equivalent_unit
    (self : UnitConverterAndValidator) (aname : String) (value : Value) :
    Except UttrValueError Unit :=
  if self.is_dimensionless value = true then
    Except.ok ()
  else
    match value with
    | Value.quantity _ un =>
        match (Value.quantity (NumData.scalar 1) un).to self.unit with
        | Except.ok _ => Except.ok ()
        | Except.error _ => Except.error ⟨aname, self.unit, un⟩
    | _ => Except.ok ()

/-- `is_equivalent` from the earlier source version (`src/uttrs.py`,
lines 47-71): same validator, except that it converts the full `value`
(`value.to(unit)`) instead of the scalar probe. -/
def UnitConverterAndValidator.is_equivalent
    (self : UnitConverterAndValidator) (aname : String) (value : Value) :
    Except UttrValueError Unit :=
  if self.is_dimensionless value = true then
    Except.ok ()
  else
    match value with
    | Value.quantity _ un =>
        match value.to self.unit with
        | Except.ok _ => Except.ok ()
        | Except.error _ => Except.error ⟨aname, self.unit, un⟩
    | _ => Except.ok ()

/-- A converter in an attrs converter chain: either some user-supplied
callable (identified by a tag) or the unit coercion bound to a
`UnitConverterAndValidator` instance. -/
inductive Converter where
  | user (id : Nat)
  | uttrConvert (ucav : UnitConverterAndValidator)
deriving DecidableEq, Repr

/-- A validator in an attrs validator chain: either some user-supplied
callable or the unit-equivalence validator bound to a
`UnitConverterAndValidator` instance. -/
inductive Validator where
  | user (id : Nat)
  | uttrValidate (ucav : UnitConverterAndValidator)
deriving DecidableEq, Repr

/-- How a `converter=` / `validator=` keyword argument arrives at
`attribute`: absent, a single callable, or a list of callables. -/
inductive FnArg (α : Type) where
  | missing
  | single (f : α)
  | fnList (l : List α)
deriving DecidableEq, Repr

/-- A value stored in a field's metadata dict: the unit policy instance or
some other user value. -/
inductive MetaVal where
  | ucavVal (ucav : UnitConverterAndValidator)
  | other (id : Nat)
deriving DecidableEq, Repr

/-- A metadata dict, as an insertion-ordered association list with unique
keys (Python dict semantics). -/
abbrev Metadata := List (String × MetaVal)

/-- Python dict assignment `m[k] = v`: replace the value in place if the key
is present, else append the new pair. -/
def Metadata.setKey : Metadata → String → MetaVal → Metadata
  | [], k, v => [(k, v)]
  | (k', v') :: rest, k, v =>
      if k' = k then (k, v) :: rest else (k', v') :: Metadata.setKey rest k v

/-- Python dict lookup `m[k]` (as an option). -/
def Metadata.getKey : Metadata → String → Option MetaVal
  | [], _ => Option.none
  | (k', v') :: rest, k => if k' = k then some v' else Metadata.getKey rest k

/-- Python membership test `k in m`. -/
def Metadata.hasKey (m : Metadata) (k : String) : Bool :=
  (m.getKey k).isSome

/-- `kwargs.pop("validator", [])` followed by the callable-to-list wrapping:
an absent argument becomes `[]`, a single callable becomes a fresh
one-element list, a list is used as is (the caller's own object). -/
def normalizeArg {α : Type} : FnArg α → List α
  | FnArg.missing => []
  | FnArg.single f => [f]
  | FnArg.fnList l => l

/-- The keyword arguments of `attribute` that the function inspects.
(All other kwargs are passed through untouched and are not modelled.) -/
structure Kwargs where
  validator : FnArg Validator
  converter : FnArg Converter
  metadata : Option Metadata
deriving DecidableEq, Repr

/-- The field descriptor handed to `attr.ib(...)`: the validator, converter
and metadata arguments it receives. -/
structure AttrIbDescriptor where
  validator : FnArg Validator
  converter : FnArg Converter
  metadata : Option Metadata
deriving DecidableEq, Repr

/-- The observable outcome of one call to `attribute`: the descriptor built,
plus the state, after the call returns, of each argument object the caller
passed in (Python lists and dicts are passed by reference, so in-place
`append` / key assignment inside `attribute` is visible to the caller). -/
structure AttributeResult where
  desc : AttrIbDescriptor
  validatorAfter : FnArg Validator
  converterAfter : FnArg Converter
  metadataAfter : Option Metadata
deriving DecidableEq, Repr

/-- `attribute` (`src/uttr.py`, lines 142-207), aliased as `ib` in the
source.  With `unit=None` it is `attr.ib(**kwargs)` and touches nothing.
Otherwise it builds one `UnitConverterAndValidator`, appends its validator
and converter to the (normalized) caller chains, stores it in the metadata
dict under `UTTR_METADATA`, and passes the three results to `attr.ib`.
`validatorAfter` / `converterAfter` / `metadataAfter` record the caller's own
argument objects after the call: a caller-passed list was appended to in
place, a caller-passed metadata dict gained the policy key in place; a
single callable or an absent argument leaves nothing of the caller's to
mutate. -/
def ib (unit : Option UnitBase) (kwargs : Kwargs) : AttributeResult :=
  match unit with
  | Option.none =>
      { desc := ⟨kwargs.validator, kwargs.converter, kwargs.metadata⟩
        validatorAfter := kwargs.validator
        converterAfter := kwargs.converter
        metadataAfter := kwargs.metadata }
  | Option.some un =>
      let ucav : UnitConverterAndValidator := ⟨un⟩
      let validator := normalizeArg kwargs.validator ++ [Validator.uttrValidate ucav]
      let converter := normalizeArg kwargs.converter ++ [Converter.uttrConvert ucav]
      let metadata :=
        Metadata.setKey (kwargs.metadata.getD []) UTTR_METADATA (MetaVal.ucavVal ucav)
      { desc := ⟨FnArg.fnList validator, FnArg.fnList converter, Option.some metadata⟩
        validatorAfter :=
          match kwargs.validator with
          | FnArg.fnList _ => FnArg.fnList validator
          | other => other
        converterAfter :=
          match kwargs.converter with
          | FnArg.fnList _ => FnArg.fnList converter
          | other => other
        metadataAfter :=
          kwargs.metadata.map
            (fun m => Metadata.setKey m UTTR_METADATA (MetaVal.ucavVal ucav)) }

/-- One attrs field descriptor as found in `attr.fields_dict`: its name and
its metadata dict. -/
structure Attrib where
  name : String
  metadata : Metadata
deriving DecidableEq, Repr

/-- An attrs class, as the ordered list of its field descriptors
(`attr.fields_dict(cls)` in insertion order). -/
structure AttrsClass where
  fieldsList : List Attrib
deriving DecidableEq, Repr

/-- A constructed instance of an attrs class: its class, and the current
value of each of its attributes (`name → value`, an insertion-ordered dict
with unique keys). -/
structure Instance where
  cls : AttrsClass
  attrs : List (String × Value)
deriving DecidableEq, Repr

/-- Dict lookup in a `fields_dict`-style mapping: `a in fd` / `fd[a]`. -/
def findAttrib : List Attrib → String → Option Attrib
  | [], _ => Option.none
  | ab :: rest, a => if ab.name = a then some ab else findAttrib rest a

/-- `getattr(instance, a)` on the wrapped instance. -/
def lookupAssoc : List (String × Value) → String → Option Value
  | [], _ => Option.none
  | (k', v') :: rest, k => if k' = k then some v' else lookupAssoc rest k

/-- `setattr(instance, f, v)` — external mutation of the wrapped instance:
replace the value in place if present, else add the attribute. -/
def setAssoc : List (String × Value) → String → Value → List (String × Value)
  | [], k, v => [(k, v)]
  | (k', v') :: rest, k, v =>
      if k' = k then (k, v) :: rest else (k', v') :: setAssoc rest k v

/-- `setattr(instance, f, v)` lifted to instances. -/
def Instance.setField (inst : Instance) (f : String) (v : Value) : Instance :=
  { inst with attrs := setAssoc inst.attrs f v }

/-- `ArrayAccessor` (`src/uttr.py`, lines 219-293).  `__init__` stores a
reference to the instance and the filtered `_fields_dict`; we keep the
snapshot `fields_dict` here and pass the referenced instance's current state
explicitly to each read (reference semantics made explicit). -/
structure ArrayAccessor where
  fields_dict : List Attrib
deriving DecidableEq, Repr

/-- `ArrayAccessor.__init__` (`src/uttr.py`, lines 255-265): filter the
class's fields, keeping those whose metadata carries `UTTR_METADATA`. -/
def ArrayAccessor.ofInstance (inst : Instance) : ArrayAccessor :=
  ⟨inst.cls.fieldsList.filter (fun ab => ab.metadata.hasKey UTTR_METADATA)⟩

/-- The outcome of `ArrayAccessor.__getattr__` / `__getitem__`. -/
inductive AccessResult where
  /-- the Python `None` returned for an unset field -/
  | pyNone
  /-- the numeric array returned on success -/
  | arr (d : NumData)
  /-- `AttributeError("No uttr.Attribute '<a>'")` -/
  | attrErr (a : String)
  /-- `KeyError(<k>)` raised by `__getitem__` -/
  | keyErr (k : String)
  /-- a `UnitConversionError` propagating out of `to_array` -/
  | convErr (e : UnitError)
  /-- any other propagated exception (the wrapped instance lacking the
  attribute, or a non-policy value under the metadata key; both unreachable
  for classes built through `ib`) -/
  | otherErr
deriving DecidableEq, Repr

/-- `ArrayAccessor.__getattr__` (`src/uttr.py`, lines 282-293), the fallback
hook Python calls when normal attribute lookup on the accessor fails:
if the name is in `_fields_dict`, read the instance's current value, return
`None` for `None`, else strip it to an array with the stored policy;
otherwise raise `AttributeError`. -/
def ArrayAccessor.getattrA (self : ArrayAccessor) (tgt : Instance) (a : String) :
    AccessResult :=
  match findAttrib self.fields_dict a with
  | Option.some ab =>
      match lookupAssoc tgt.attrs a with
      | Option.some Value.none => AccessResult.pyNone
      | Option.some v =>
          match ab.metadata.getKey UTTR_METADATA with
          | Option.some (MetaVal.ucavVal ucav) =>
              match ucav.to_array v with
              | Except.ok d => AccessResult.arr d
              | Except.error e => AccessResult.convErr e
          | _ => AccessResult.otherErr
      | Option.none => AccessResult.otherErr
  | Option.none => AccessResult.attrErr a

/-- `ArrayAccessor.__getitem__` (`src/uttr.py`, lines 275-280): call
`self.__getattr__(k)` directly (so the accessor's own attributes play no
role here) and re-raise `AttributeError` as `KeyError(k)`. -/
def ArrayAccessor.getitemA (self : ArrayAccessor) (tgt : Instance) (k : String) :
    AccessResult :=
  match self.getattrA tgt k with
  | AccessResult.attrErr _ => AccessResult.keyErr k
  | r => r

/-- The names Python's normal attribute lookup resolves on an
`ArrayAccessor` object before the `__getattr__` fallback is ever consulted:
the two instance attributes set in `__init__`, the methods defined on the
class (`__init__`, `__repr__`, `__dir__`, `__getitem__`, `__getattr__`)
and the attributes every object inherits from `object`.  The inherited part
varies slightly with the Python version; this list is the CPython one and is
used as a concrete representative — the theorems below that depend on the
set quantify over it. -/
def accessorNormalNames : List String :=
  ["_instance", "_fields_dict",
   "__init__", "__repr__", "__dir__", "__getitem__", "__getattr__",
   "__class__", "__dict__", "__doc__", "__module__",
   "__setattr__", "__delattr__", "__getattribute__",
   "__eq__", "__ne__", "__hash__", "__str__", "__format__",
   "__sizeof__", "__reduce__", "__reduce_ex__",
   "__new__", "__init_subclass__", "__subclasshook__", "__weakref__",
   "__le__", "__lt__", "__ge__", "__gt__"]

/-- The outcome of a full Python attribute access on the accessor. -/
inductive ProxyAttrResult where
  /-- normal lookup resolved the name on the accessor object or its class -/
  | ownAttr (a : String)
  /-- normal lookup failed and Python called `__getattr__` -/
  | viaFallback (r : AccessResult)
deriving DecidableEq, Repr

/-- Full Python semantics of `accessor.<a>`: Python first performs normal
attribute lookup on the accessor object (its instance dict, then its class's
method-resolution order) and calls the `__getattr__` fallback only when that
lookup fails.  Which names normal lookup resolves is determined by the
ambient runtime, so the set is the parameter `normalNames` (for the source
class it always contains `_instance` and `_fields_dict` and the class and
`object` attributes; `accessorNormalNames` is the concrete CPython set). -/
def ArrayAccessor.pyGetattr (self : ArrayAccessor) (normalNames : List String)
    (tgt : Instance) (a : String) : ProxyAttrResult :=
  if a ∈ normalNames then
    ProxyAttrResult.ownAttr a
  else
    ProxyAttrResult.viaFallback (self.getattrA tgt a)

/-- `__getattr__` as an explicit state transformer over the referenced
instance and the accessor itself: the body of the source method contains no
assignment to either, so the translation returns both components unchanged
next to the computed result. -/
def ArrayAccessor.readS (self : ArrayAccessor) (tgt : Instance) (a : String) :
    AccessResult × Instance × ArrayAccessor :=
  (self.getattrA tgt a, tgt, self)

/-- A Python class as seen by the decorator `s`: the attribute names
visible on it (`hasattr`), the accessor properties installed by `setattr`,
and whether `attr.s` has processed it. -/
structure PyClass where
  members : List String
  accessorProps : List String
  attrsProcessed : Bool
deriving DecidableEq, Repr

/-- `setattr(cls, aaccessor, array_accessor())` (`src/uttr.py`, line 393):
installs the lazily-evaluated accessor property under the given name. -/
def PyClass.setAccessor (cls : PyClass) (name : String) : PyClass :=
  { cls with
    members := cls.members ++ [name]
    accessorProps := cls.accessorProps ++ [name] }

/-- `attr.s(**kwargs)(cls)` (`src/uttr.py`, lines 395-396): the external
class builder processing the class. -/
def PyClass.attrsApply (cls : PyClass) : PyClass :=
  { cls with attrsProcessed := true }

/-- The class decorator `s` (`src/uttr.py`, lines 344-400), applied to a
class (the `maybe_cls=None` curried form ends up in the same `wrap`):
with a non-`None` accessor name, raise `ValueError` if the class already has
an attribute of that name, else install the accessor property and apply
`attr.s`; with `aaccessor=None`, just apply `attr.s`. -/
def s (aaccessor : Option String) (cls : PyClass) : Except String PyClass :=
  match aaccessor with
  | Option.some name =>
      if name ∈ cls.members then
        Except.error ("already has an attribute with name " ++ name)
      else
        Except.ok (PyClass.attrsApply (PyClass.setAccessor cls name))
  | Option.none => Except.ok (PyClass.attrsApply cls)

/-- The policy instance of a field declared `uttr.ib(unit=u.kg)`. -/
def ucavKg : UnitConverterAndValidator := ⟨kg⟩

/-- The attrs field descriptor produced for `x = uttr.ib(unit=u.kg)`:
name `"x"`, metadata carrying the policy under `UTTR_METADATA`. -/
def fieldX : Attrib := ⟨"x", [(UTTR_METADATA, MetaVal.ucavVal ucavKg)]⟩

/-- A class with the single unit-aware field `x` (canonical unit kilogram). -/
def clsX : AttrsClass := ⟨[fieldX]⟩

/-- The attrs construction pipeline for one field declared through `ib` with
no user-supplied converters or validators (the chains built by `ib` are then
`[convert_if_dimensionless]` and `[validate_is_equivalent_unit]`): attrs
applies the converter to the incoming value, then runs the validator on the
converted value; construction fails exactly when the validator raises. -/
def uttrFieldInit (ucav : UnitConverterAndValidator) (aname : String) (v : Value) :
    Except UttrValueError Value :=
  let converted := ucav.convert_if_dimensionless v
  match ucav.validate_is_equivalent_unit aname converted with
  | Except.ok _ => Except.ok converted
  | Except.error e => Except.error e

/-- `Foo(x=raw)` for a class declared with `x = uttr.ib(unit=u.kg)`. -/
def mkObjX (raw : Value) : Except UttrValueError Instance :=
  match uttrFieldInit ucavKg "x" raw with
  | Except.ok v => Except.ok ⟨clsX, [("x", v)]⟩
  | Except.error e => Except.error e

/-- `Foo(x=1)` as constructed: the converter promoted the bare `1` to
`1 kg`. -/
def instOne : Instance := ⟨clsX, [("x", Value.quantity (NumData.scalar 1) kg)]⟩

/-- `Foo(x=1000*u.g)` as constructed: the converter left the gram quantity
untouched. -/
def instGram : Instance := ⟨clsX, [("x", Value.quantity (NumData.scalar 1000) gram)]⟩

/-- A class with the unit-aware field `x` plus an attrs field named
`_instance` that is not unit-aware. -/
def clsPriv : AttrsClass := ⟨[fieldX, ⟨"_instance", []⟩]⟩

/-- An instance of `clsPriv` whose `_instance` attribute holds a quantity. -/
def instPriv : Instance :=
  ⟨clsPriv, [("x", Value.quantity (NumData.scalar 1) kg),
             ("_instance", Value.quantity (NumData.scalar 7) gram)]⟩

/-- An instance of the kilogram class whose field `x` is currently `None`. -/
def instNone : Instance := ⟨clsX, [("x", Value.none)]⟩

/-- Dict assignment then lookup of the same key gives the assigned value. -/
theorem Metadata.getKey_setKey (m : Metadata) (k : String) (v : MetaVal) :
    Metadata.getKey (Metadata.setKey m k v) k = some v := by
  induction m with
  | nil => simp [Metadata.setKey, Metadata.getKey]
  | cons p rest ih =>
      by_cases h : p.1 = k
      · simp [Metadata.setKey, Metadata.getKey, h]
      · simpa [Metadata.setKey, Metadata.getKey, h] using ih

/-- `setattr` followed by `getattr` of the same attribute name yields the
value just stored. -/
theorem lookupAssoc_setAssoc (l : List (String × Value)) (k : String) (v : Value) :
    lookupAssoc (setAssoc l k v) k = Option.some v := by
  induction l with
  | nil => simp [setAssoc, lookupAssoc]
  | cons p rest ih =>
      by_cases h : p.1 = k
      · simp [setAssoc, lookupAssoc, h]
      · simpa [setAssoc, lookupAssoc, h] using ih

/-- Claim C1: a field with canonical unit kilogram constructed from the bare
number `1` reads back as the number `1` through the accessor, and
constructed from the quantity `1000 g` it also reads back as `1` — the value
is re-expressed in the canonical unit at read time. -/
theorem c1_roundtrip_kilogram :
    mkObjX (Value.num (NumData.scalar 1)) = Except.ok instOne
  ∧ (ArrayAccessor.ofInstance instOne).pyGetattr accessorNormalNames instOne "x" =
      ProxyAttrResult.viaFallback (AccessResult.arr (NumData.scalar 1))
  ∧ mkObjX (Value.quantity (NumData.scalar 1000) gram) = Except.ok instGram
  ∧ (ArrayAccessor.ofInstance instGram).pyGetattr accessorNormalNames instGram "x" =
      ProxyAttrResult.viaFallback (AccessResult.arr (NumData.scalar 1)) := by
  refine ⟨?_, ?_, ?_, ?_⟩ <;>
    simp [mkObjX, uttrFieldInit, instOne, instGram, clsX, fieldX, ucavKg,
      UnitConverterAndValidator.convert_if_dimensionless,
      UnitConverterAndValidator.is_dimensionless,
      UnitConverterAndValidator.validate_is_equivalent_unit,
      UnitConverterAndValidator.to_array, Value.to, mulUnit, UnitBase.mulU,
      NumData.smul, kg, gram, dimensionless_unscaled,
      ArrayAccessor.ofInstance, ArrayAccessor.pyGetattr, ArrayAccessor.getattrA,
      findAttrib, lookupAssoc, Metadata.hasKey, Metadata.getKey,
      accessorNormalNames, UTTR_METADATA]

/-- Claim C2: `convert_if_dimensionless` multiplies every dimensionless
non-`None` input (bare number, bare array, or quantity tagged with the
dimensionless-unscaled unit) by the canonical unit, and returns every
quantity carrying any other unit unchanged — no conversion happens at
assignment time. -/
theorem c2_convert_if_dimensionless_spec (ucav : UnitConverterAndValidator) :
    (∀ v : Value, v ≠ Value.none → ucav.is_dimensionless v = true →
        ucav.convert_if_dimensionless v = mulUnit v ucav.unit)
  ∧ (∀ (d : NumData) (un : UnitBase), un ≠ dimensionless_unscaled →
        ucav.convert_if_dimensionless (Value.quantity d un) = Value.quantity d un) := by
  constructor
  · intro v hv hd
    simp [UnitConverterAndValidator.convert_if_dimensionless, hd, hv]
  · intro d un h
    simp [UnitConverterAndValidator.convert_if_dimensionless,
      UnitConverterAndValidator.is_dimensionless, h]

/-- Witness for C2 at concrete inputs: under a kilogram policy the bare
number `2` is promoted to `2 kg`, and `2 g` passes through unchanged. -/
theorem c2_convert_if_dimensionless_spec_witness :
    ucavKg.convert_if_dimensionless (Value.num (NumData.scalar 2)) =
      mulUnit (Value.num (NumData.scalar 2)) ucavKg.unit
  ∧ ucavKg.convert_if_dimensionless (Value.quantity (NumData.scalar 2) gram) =
      Value.quantity (NumData.scalar 2) gram :=
  ⟨(c2_convert_if_dimensionless_spec ucavKg).1 _ (by decide) (by decide),
   (c2_convert_if_dimensionless_spec ucavKg).2 _ gram
     (by simp [gram, dimensionless_unscaled])⟩

/-- Claim C3: the equivalence validator accepts every dimensionless value;
for a quantity carrying any other unit it accepts exactly when that unit has
the physical dimension of (is convertible to) the canonical unit, and on
failure it raises the error carrying the field name, the expected canonical
unit and the unit found on the value. -/
theorem c3_validator_spec (ucav : UnitConverterAndValidator) (aname : String) :
    (∀ v : Value, ucav.is_dimensionless v = true →
        ucav.validate_is_equivalent_unit aname v = Except.ok ())
  ∧ (∀ (d : NumData) (un : UnitBase), un ≠ dimensionless_unscaled →
        (ucav.validate_is_equivalent_unit aname (Value.quantity d un) = Except.ok ()
          ↔ un.dim = ucav.unit.dim))
  ∧ (∀ (d : NumData) (un : UnitBase), un ≠ dimensionless_unscaled →
        un.dim ≠ ucav.unit.dim →
        ucav.validate_is_equivalent_unit aname (Value.quantity d un) =
          Except.error ⟨aname, ucav.unit, un⟩) := by
  refine ⟨?_, ?_, ?_⟩
  · intro v h
    simp [UnitConverterAndValidator.validate_is_equivalent_unit, h]
  · intro d un h
    by_cases hd : un.dim = ucav.unit.dim <;>
      simp [UnitConverterAndValidator.validate_is_equivalent_unit,
        UnitConverterAndValidator.is_dimensionless, Value.to, h, hd]
  · intro d un h hd
    simp [UnitConverterAndValidator.validate_is_equivalent_unit,
      UnitConverterAndValidator.is_dimensionless, Value.to, h, hd]

/-- Witness for C3 at concrete inputs: a kilogram policy accepts the bare
number `3`, accepts `3 g` (equivalent unit), and rejects `3 m` with the
error carrying the field name, kilogram and metre. -/
theorem c3_validator_spec_witness :
    ucavKg.validate_is_equivalent_unit "x" (Value.num (NumData.scalar 3)) =
      Except.ok ()
  ∧ (ucavKg.validate_is_equivalent_unit "x" (Value.quantity (NumData.scalar 3) gram)
        = Except.ok () ↔ gram.dim = ucavKg.unit.dim)
  ∧ ucavKg.validate_is_equivalent_unit "x" (Value.quantity (NumData.scalar 3) meter) =
      Except.error ⟨"x", ucavKg.unit, meter⟩ :=
  ⟨(c3_validator_spec ucavKg "x").1 _ (by decide),
   (c3_validator_spec ucavKg "x").2.1 _ gram (by simp [gram, dimensionless_unscaled]),
   (c3_validator_spec ucavKg "x").2.2 _ meter (by decide) (by decide)⟩

/-- Counterexample to claim C4 as stated: `"_instance"` is not retained in
the accessor's field mapping and does exist on the target (with a quantity
value), yet Python attribute access on the accessor does not fail — normal
lookup finds the accessor's own `_instance` slot before the `__getattr__`
fallback would raise.  Likewise for the class attribute `"__repr__"`:
not retained, yet resolved to the bound method by normal lookup instead of
raising. -/
theorem c4_counterexample :
    findAttrib (ArrayAccessor.ofInstance instPriv).fields_dict "_instance" =
      Option.none
  ∧ lookupAssoc instPriv.attrs "_instance" =
      Option.some (Value.quantity (NumData.scalar 7) gram)
  ∧ (ArrayAccessor.ofInstance instPriv).pyGetattr accessorNormalNames
      instPriv "_instance" = ProxyAttrResult.ownAttr "_instance"
  ∧ (ArrayAccessor.ofInstance instPriv).pyGetattr accessorNormalNames
      instPriv "_instance" ≠
      ProxyAttrResult.viaFallback (AccessResult.attrErr "_instance")
  ∧ findAttrib (ArrayAccessor.ofInstance instPriv).fields_dict "__repr__" =
      Option.none
  ∧ (ArrayAccessor.ofInstance instPriv).pyGetattr accessorNormalNames
      instPriv "__repr__" = ProxyAttrResult.ownAttr "__repr__" := by
  refine ⟨?_, ?_, ?_, ?_, ?_, ?_⟩ <;>
    simp [ArrayAccessor.ofInstance, ArrayAccessor.pyGetattr, findAttrib,
      lookupAssoc, clsPriv, instPriv, fieldX, Metadata.hasKey, Metadata.getKey,
      UTTR_METADATA, accessorNormalNames]

/-- Claim C4 (amended): for every name not retained in the accessor's field
mapping that Python's normal attribute lookup does not resolve on the
accessor object itself — whatever that resolvable set is in the ambient
runtime: the `_instance` and `_fields_dict` instance attributes and the
attributes of the accessor's class, `__repr__` and the rest — attribute
access fails with the attribute-not-found condition; item lookup with any
non-retained name, the normally-resolvable ones included, fails with the
key-not-found condition, because `__getitem__` invokes `__getattr__`
directly. -/
theorem c4_amended_unknown_field (normalNames : List String)
    (acc : ArrayAccessor) (tgt : Instance)
    (a : String) (hn : findAttrib acc.fields_dict a = Option.none) :
    (a ∉ normalNames →
        acc.pyGetattr normalNames tgt a =
          ProxyAttrResult.viaFallback (AccessResult.attrErr a))
  ∧ acc.getitemA tgt a = AccessResult.keyErr a := by
  constructor
  · intro hs
    simp [ArrayAccessor.pyGetattr, hs, ArrayAccessor.getattrA, hn]
  · simp [ArrayAccessor.getitemA, ArrayAccessor.getattrA, hn]

/-- Witness for the amended C4 at a concrete input: the accessor over a
kilogram-field instance, queried for the unknown name `"q"`, with the
CPython set of normally-resolvable accessor names. -/
theorem c4_amended_unknown_field_witness :
    ((ArrayAccessor.mk [fieldX]).pyGetattr accessorNormalNames instOne "q" =
        ProxyAttrResult.viaFallback (AccessResult.attrErr "q"))
  ∧ (ArrayAccessor.mk [fieldX]).getitemA instOne "q" = AccessResult.keyErr "q" :=
  ⟨(c4_amended_unknown_field accessorNormalNames (ArrayAccessor.mk [fieldX])
      instOne "q" (by decide)).1 (by decide),
   (c4_amended_unknown_field accessorNormalNames (ArrayAccessor.mk [fieldX])
      instOne "q" (by decide)).2⟩

/-- Claim C5: `None` propagates unchanged — the converter returns `None` for
`None` (no promotion to a quantity), and both accessor read paths return
`None` for a retained field whose current value is `None`, never an error
and never a zero-valued array. -/
theorem c5_none_propagation (ucav : UnitConverterAndValidator)
    (acc : ArrayAccessor) (tgt : Instance) (a : String) (ab : Attrib)
    (hf : findAttrib acc.fields_dict a = Option.some ab)
    (hv : lookupAssoc tgt.attrs a = Option.some Value.none) :
    ucav.convert_if_dimensionless Value.none = Value.none
  ∧ acc.getattrA tgt a = AccessResult.pyNone
  ∧ acc.getitemA tgt a = AccessResult.pyNone := by
  refine ⟨?_, ?_, ?_⟩
  · simp [UnitConverterAndValidator.convert_if_dimensionless]
  · simp [ArrayAccessor.getattrA, hf, hv]
  · simp [ArrayAccessor.getitemA, ArrayAccessor.getattrA, hf, hv]

/-- Witness for C5 at a concrete input: field `x` holding `None`. -/
theorem c5_none_propagation_witness :
    ucavKg.convert_if_dimensionless Value.none = Value.none
  ∧ (ArrayAccessor.mk [fieldX]).getattrA instNone "x" = AccessResult.pyNone
  ∧ (ArrayAccessor.mk [fieldX]).getitemA instNone "x" = AccessResult.pyNone :=
  c5_none_propagation ucavKg (ArrayAccessor.mk [fieldX]) instNone "x" fieldX
    (by decide) (by decide)

/-- Claim C6: the validator of the current version, which probes
convertibility on the single scalar `1 * value.unit`, accepts a value
exactly when the earlier version's validator, which converts the full value,
accepts it — the cost-bounding optimization changes no accept/reject
decision. -/
theorem c6_scalar_probe_equivalent (ucav : UnitConverterAndValidator)
    (aname : String) (v : Value) :
    ucav.validate_is_equivalent_unit aname v = Except.ok ()
      ↔ ucav.is_equivalent aname v = Except.ok () := by
  cases v with
  | none =>
      simp [UnitConverterAndValidator.validate_is_equivalent_unit,
        UnitConverterAndValidator.is_equivalent,
        UnitConverterAndValidator.is_dimensionless]
  | num d =>
      simp [UnitConverterAndValidator.validate_is_equivalent_unit,
        UnitConverterAndValidator.is_equivalent,
        UnitConverterAndValidator.is_dimensionless]
  | quantity d un =>
      by_cases h : un = dimensionless_unscaled
      · simp [UnitConverterAndValidator.validate_is_equivalent_unit,
          UnitConverterAndValidator.is_equivalent,
          UnitConverterAndValidator.is_dimensionless, h]
      · by_cases hd : un.dim = ucav.unit.dim <;>
          simp [UnitConverterAndValidator.validate_is_equivalent_unit,
            UnitConverterAndValidator.is_equivalent,
            UnitConverterAndValidator.is_dimensionless, Value.to, h, hd]

/-- Claim C7: with a unit, `ib` builds one policy instance, appends its
converter and validator at the end of the caller's (normalized) chains —
user callables stay in front — and hands `attr.ib` a metadata dict holding
that same policy instance under the well-known key; with `unit=None` it is a
pure pass-through of the caller's arguments to `attr.ib`. -/
theorem c7_ib_descriptor (un : UnitBase) (kwargs : Kwargs) :
    (ib (Option.some un) kwargs).desc =
      ⟨FnArg.fnList (normalizeArg kwargs.validator
          ++ [Validator.uttrValidate (UnitConverterAndValidator.mk un)]),
        FnArg.fnList (normalizeArg kwargs.converter
          ++ [Converter.uttrConvert (UnitConverterAndValidator.mk un)]),
        Option.some (Metadata.setKey (kwargs.metadata.getD []) UTTR_METADATA
          (MetaVal.ucavVal (UnitConverterAndValidator.mk un)))⟩
  ∧ ((ib (Option.some un) kwargs).desc.metadata.map
        (fun m => Metadata.getKey m UTTR_METADATA))
      = Option.some (Option.some (MetaVal.ucavVal (UnitConverterAndValidator.mk un)))
  ∧ (ib Option.none kwargs).desc = ⟨kwargs.validator, kwargs.converter, kwargs.metadata⟩ := by
  refine ⟨rfl, ?_, rfl⟩
  simp [ib, Metadata.getKey_setKey]

/-- Counterexample to claim C8 as stated: the caller passes the empty list
as the `validator` argument; after the call the caller's list is no longer
empty — `attribute` appended the unit validator to it in place. -/
theorem c8_counterexample :
    (ib (Option.some kg) ⟨FnArg.fnList [], FnArg.missing, Option.none⟩).validatorAfter
      ≠ FnArg.fnList [] := by
  decide

/-- Claim C8 (amended): beyond descriptor construction, the only side
effects of `ib` are the in-place appends on caller-passed containers — a
caller-passed validator or converter list gains the corresponding unit
callable at its end, a caller-passed metadata dict gains the policy under
the well-known key; a single callable, an absent argument, or a call with
`unit=None` leaves everything of the caller's untouched. -/
theorem c8_amended_argument_effects (un : UnitBase) (kwargs : Kwargs) :
    ((ib (Option.some un) kwargs).validatorAfter =
      match kwargs.validator with
      | FnArg.fnList l =>
          FnArg.fnList (l ++ [Validator.uttrValidate (UnitConverterAndValidator.mk un)])
      | other => other)
  ∧ ((ib (Option.some un) kwargs).converterAfter =
      match kwargs.converter with
      | FnArg.fnList l =>
          FnArg.fnList (l ++ [Converter.uttrConvert (UnitConverterAndValidator.mk un)])
      | other => other)
  ∧ ((ib (Option.some un) kwargs).metadataAfter =
      kwargs.metadata.map
        (fun m => Metadata.setKey m UTTR_METADATA
          (MetaVal.ucavVal (UnitConverterAndValidator.mk un))))
  ∧ (ib Option.none kwargs).validatorAfter = kwargs.validator
  ∧ (ib Option.none kwargs).converterAfter = kwargs.converter
  ∧ (ib Option.none kwargs).metadataAfter = kwargs.metadata := by
  obtain ⟨kv, kc, km⟩ := kwargs
  refine ⟨?_, ?_, rfl, rfl, rfl, rfl⟩ <;>
    cases kv <;> cases kc <;> simp [ib, normalizeArg]

/-- Claim C9: accessor reads are pure computed reads — a read returns the
wrapped instance and the accessor's retained field mapping unchanged, an
external `setattr` on the target stores the new value, and the result of a
read depends on the target only through the value the read field holds at
call time, so a mutation between two reads is reflected in the second. -/
theorem c9_reads_are_pure (acc : ArrayAccessor) (tgt : Instance) (a : String) :
    acc.readS tgt a = (acc.getattrA tgt a, tgt, acc)
  ∧ (∀ v : Value, lookupAssoc ((tgt.setField a v).attrs) a = Option.some v)
  ∧ (∀ tgt' : Instance, lookupAssoc tgt'.attrs a = lookupAssoc tgt.attrs a →
        acc.getattrA tgt' a = acc.getattrA tgt a) := by
  refine ⟨rfl, ?_, ?_⟩
  · intro v
    simpa [Instance.setField] using lookupAssoc_setAssoc tgt.attrs a v
  · intro tgt' h
    unfold ArrayAccessor.getattrA
    rw [h]

/-- Witness for C9 at concrete inputs: a read of `x` on the kilogram
instance returns the state unchanged; setting `x` to a new quantity stores
it; and after setting `x` to `None` the next read computes from the new
value (it equals the read on an instance that always held `None`). -/
theorem c9_reads_are_pure_witness :
    (ArrayAccessor.mk [fieldX]).readS instOne "x" =
      ((ArrayAccessor.mk [fieldX]).getattrA instOne "x", instOne,
        ArrayAccessor.mk [fieldX])
  ∧ lookupAssoc ((instOne.setField "x" (Value.quantity (NumData.scalar 2) kg)).attrs) "x"
      = Option.some (Value.quantity (NumData.scalar 2) kg)
  ∧ (ArrayAccessor.mk [fieldX]).getattrA instNone "x" =
      (ArrayAccessor.mk [fieldX]).getattrA (instOne.setField "x" Value.none) "x" :=
  ⟨(c9_reads_are_pure (ArrayAccessor.mk [fieldX]) instOne "x").1,
   (c9_reads_are_pure (ArrayAccessor.mk [fieldX]) instOne "x").2.1
     (Value.quantity (NumData.scalar 2) kg),
   (c9_reads_are_pure (ArrayAccessor.mk [fieldX])
      (instOne.setField "x" Value.none) "x").2.2 instNone (by decide)⟩

/-- Claim C10: applying the decorator `s` with an accessor name the class
already has raises `ValueError` and performs no decoration; with a fresh
name it installs the accessor property and then applies the attrs class
builder; with `aaccessor=None` it only applies the class builder and adds no
property. -/
theorem c10_s_decorator (name : String) (cls : PyClass) :
    (name ∈ cls.members →
        s (Option.some name) cls =
          Except.error ("already has an attribute with name " ++ name))
  ∧ (name ∉ cls.members →
        s (Option.some name) cls =
          Except.ok ⟨cls.members ++ [name], cls.accessorProps ++ [name], true⟩)
  ∧ s Option.none cls = Except.ok ⟨cls.members, cls.accessorProps, true⟩ := by
  refine ⟨?_, ?_, ?_⟩
  · intro h
    simp [s, h]
  · intro h
    simp [s, h, PyClass.attrsApply, PyClass.setAccessor]
  · simp [s, PyClass.attrsApply]

/-- Witness for C10 at a concrete class: one with attribute `"x"` and the
default accessor name `"arr_"` free. -/
theorem c10_s_decorator_witness :
    s (Option.some "x") ⟨["x"], [], false⟩ =
      Except.error ("already has an attribute with name " ++ "x")
  ∧ s (Option.some "arr_") ⟨["x"], [], false⟩ =
      Except.ok ⟨["x", "arr_"], ["arr_"], true⟩
  ∧ s Option.none ⟨["x"], [], false⟩ = Except.ok ⟨["x"], [], true⟩ :=
  ⟨(c10_s_decorator "x" ⟨["x"], [], false⟩).1 (by decide),
   (c10_s_decorator "arr_" ⟨["x"], [], false⟩).2.1 (by decide),
   (c10_s_decorator "arr_" ⟨["x"], [], false⟩).2.2⟩
